import Mathlib

/-!
Verification development for the BananaFits virtual try-on application.

The definitions below are a shallow embedding of the application's
orchestration layer: the edit-history state (history list + cursor) and the
user-action handlers of the `App` component, the request-building and
response-interpretation logic of the gemini service (`generateLayeredOutfit`,
`generateVariations`, `generateCaptions`, `handleApiResponse`,
`handleImageClick`, `handleRefineRequest`), and the clothing-item data model
of `TryOnPanel`.  Images (browser `File` objects) are abstracted by a type
parameter `α`; the remote generative model and the browser JSON parser are
abstracted by oracle function parameters.  Fractional pixel coordinates are
modelled by `ℚ` and machine integers by `Int`/`Nat` (no overflow is possible
in the quantities involved).
-/

namespace BananaFits

/-! ## Data model -/

/-- Clothing categories, from `CLOTHING_CATEGORIES` in `TryOnPanel`. -/
inductive ClothingCategory where
  | top
  | outerwear
  | bottoms
  | shoes
  | hat
  | sunglasses
deriving DecidableEq

/-- Source mode of a clothing item (`'upload' | 'prompt'`). -/
inductive ItemSource where
  | upload
  | itemPrompt
deriving DecidableEq

/-- The value of a clothing item: `File | string` in the source
(`null` is modelled by wrapping in `Option`). -/
inductive ItemValue (α : Type) where
  | file (f : α)
  | text (s : String)
deriving DecidableEq

/-- `ClothingItem` from `TryOnPanel.tsx`. -/
structure ClothingItem (α : Type) where
  id : Nat
  category : ClothingCategory
  source : ItemSource
  value : Option (ItemValue α)
  hotspot : Option (Int × Int)
deriving DecidableEq

/-- The `variationResults` state: `{images: string[], captions: string[]}`. -/
structure VariationResults where
  images : List String
  captions : List String
deriving DecidableEq

/-- The `refinementState` state object of `App`. -/
structure RefinementState where
  isOpen : Bool
  imageIndex : Option Nat
  imageSrc : Option String
  caption : Option String
deriving DecidableEq

/-- The state variables of the `App` component relevant to history,
outfit composition, variation results and refinement. -/
structure AppState (α : Type) where
  appStarted : Bool
  history : List α
  historyIndex : Int
  error : Option String
  displayHotspot : Option (ℚ × ℚ)
  clothingItems : List (ClothingItem α)
  activeClothingItemId : Option Nat
  variationResults : Option VariationResults
  isOutfitApplied : Bool
  refinementState : RefinementState
deriving DecidableEq

/-- The initial `useState` values of `App`: empty history, cursor -1,
everything else cleared. -/
def initState (α : Type) : AppState α where
  appStarted := false
  history := []
  historyIndex := -1
  error := none
  displayHotspot := none
  clothingItems := []
  activeClothingItemId := none
  variationResults := none
  isOutfitApplied := false
  refinementState := { isOpen := false, imageIndex := none, imageSrc := none, caption := none }

/-- JavaScript `String.prototype.trim()`: strip leading and trailing
whitespace. -/
def jsTrim (s : String) : String :=
  String.mk (((s.data.dropWhile Char.isWhitespace).reverse.dropWhile
    Char.isWhitespace).reverse)

/-! ## Edit history operations -/

/-- JavaScript `Array.prototype.slice(0, e)`: a negative end index counts
from the end of the array, and out-of-range indices are clamped. -/
def jsSliceTo {α : Type} (l : List α) (e : Int) : List α :=
  if e < 0 then l.take ((l.length + e).toNat) else l.take e.toNat

/-- `addImageToHistory` from `App`: `history.slice(0, historyIndex + 1)`,
push the new file, and point the cursor at the new last index.  Returns the
new `(history, historyIndex)` pair. -/
def addImageToHistory {α : Type} (newImageFile : α) (history : List α)
    (historyIndex : Int) : List α × Int :=
  let newHistory := jsSliceTo history (historyIndex + 1) ++ [newImageFile]
  (newHistory, (newHistory.length : Int) - 1)

/-- The effect of `addImageToHistory` on the full `App` state. -/
def stepAddImage {α : Type} (newImageFile : α) (s : AppState α) : AppState α :=
  let p := addImageToHistory newImageFile s.history s.historyIndex
  { s with history := p.1, historyIndex := p.2 }

/-- `handleImageUpload` from `App`: reset history to the single uploaded
file and clear the outfit/variation state. -/
def handleImageUpload {α : Type} (file : α) (s : AppState α) : AppState α :=
  { s with
    error := none
    history := [file]
    historyIndex := 0
    clothingItems := []
    activeClothingItemId := none
    displayHotspot := none
    variationResults := none
    isOutfitApplied := false }

/-- `canUndo` from `App`: `historyIndex > 0`. -/
def canUndo {α : Type} (s : AppState α) : Prop := 0 < s.historyIndex

instance {α : Type} (s : AppState α) : Decidable (canUndo s) := by
  unfold canUndo; infer_instance

/-- `canRedo` from `App`: `historyIndex < history.length - 1`. -/
def canRedo {α : Type} (s : AppState α) : Prop :=
  s.historyIndex < (s.history.length : Int) - 1

instance {α : Type} (s : AppState α) : Decidable (canRedo s) := by
  unfold canRedo; infer_instance

/-- `handleUndo` from `App`: when `canUndo`, decrement the cursor, clear the
display hotspot and reset the outfit-applied flag; otherwise do nothing. -/
def handleUndo {α : Type} (s : AppState α) : AppState α :=
  if canUndo s then
    { s with
      historyIndex := s.historyIndex - 1
      displayHotspot := none
      isOutfitApplied := false }
  else s

/-- `handleRedo` from `App`: when `canRedo`, increment the cursor, clear the
display hotspot and reset the outfit-applied flag; otherwise do nothing. -/
def handleRedo {α : Type} (s : AppState α) : AppState α :=
  if canRedo s then
    { s with
      historyIndex := s.historyIndex + 1
      displayHotspot := none
      isOutfitApplied := false }
  else s

/-- `handleReset` from `App`: when the history is non-empty, move the cursor
back to index 0 and clear error/hotspot/outfit-applied. -/
def handleReset {α : Type} (s : AppState α) : AppState α :=
  if 0 < s.history.length then
    { s with
      historyIndex := 0
      error := none
      displayHotspot := none
      isOutfitApplied := false }
  else s

/-- `handleUploadNew` from `App`: clear everything and return to the landing
page. -/
def handleUploadNew {α : Type} (s : AppState α) : AppState α :=
  { s with
    history := []
    historyIndex := -1
    error := none
    clothingItems := []
    activeClothingItemId := none
    displayHotspot := none
    variationResults := none
    isOutfitApplied := false
    appStarted := false }

/-- `handleConfirmOutfit` from `App`: clear the clothing-item list and reset
the outfit-applied flag; nothing else is touched. -/
def handleConfirmOutfit {α : Type} (s : AppState α) : AppState α :=
  { s with clothingItems := [], isOutfitApplied := false }

/-- `handleDiscardVariations` from `App`: clear the variation results;
nothing else is touched. -/
def handleDiscardVariations {α : Type} (s : AppState α) : AppState α :=
  { s with variationResults := none }

/-- The success continuation of `handleApplyOutfit` in `App` (the code run
after `generateLayeredOutfit` resolves): append the generated image to the
history, set the outfit-applied flag, and clear hotspot and active item. -/
def handleApplyOutfitSuccess {α : Type} (newImageFile : α) (s : AppState α) :
    AppState α :=
  let s1 := stepAddImage newImageFile { s with error := none }
  { s1 with
    isOutfitApplied := true
    displayHotspot := none
    activeClothingItemId := none }

/-- The success continuation of `handleGenerate` in `App`: store the freshly
generated variation result set. -/
def handleGenerateSuccess {α : Type} (res : VariationResults) (s : AppState α) :
    AppState α :=
  { s with error := none, variationResults := some res }

/-! ## Remote generation client: response interpretation (`handleApiResponse`) -/

/-- `BlockReason` of the remote API's `promptFeedback` (a string enum whose
values are never the empty string). -/
inductive BlockReason where
  | safety
  | other
  | blocklist
  | prohibitedContent
deriving DecidableEq

/-- `FinishReason` of a remote candidate (a string enum whose values are
never the empty string); `stop` is the normal completion reason `'STOP'`. -/
inductive FinishReason where
  | stop
  | maxTokens
  | safety
  | recitation
  | language
  | other
deriving DecidableEq

/-- An inline image payload `{mimeType, data}` of a response part. -/
structure InlineData where
  mimeType : String
  data : String
deriving DecidableEq

/-- A response part: an optional inline image and optional text. -/
structure ResponsePart where
  inlineData : Option InlineData
  text : Option String
deriving DecidableEq

/-- A response candidate: `content.parts` (the whole `content` object may be
absent) and an optional finish reason. -/
structure Candidate where
  content : Option (List ResponsePart)
  finishReason : Option FinishReason
deriving DecidableEq

/-- `promptFeedback` of a response. -/
structure PromptFeedback where
  blockReason : Option BlockReason
  blockReasonMessage : Option String
deriving DecidableEq

/-- A `GenerateContentResponse`: prompt feedback, candidates and the
aggregated text accessor `response.text`. -/
structure GenerateContentResponse where
  promptFeedback : Option PromptFeedback
  candidates : Option (List Candidate)
  text : Option String
deriving DecidableEq

/-- The error taxonomy of the generation client, one constructor per `throw`
site: a safety block, a non-`STOP` finish reason, a missing image (with the
trimmed text feedback when it was non-empty), an outfit request with no
valid clothing items, and an invalid-argument error. -/
inductive GenError where
  | blocked (reason : BlockReason) (message : String)
  | stopped (reason : FinishReason)
  | noImage (textFeedback : Option String)
  | noValidItems
  | invalidArgument (message : String)
deriving DecidableEq

/-- `response.promptFeedback?.blockReason`. -/
def blockReasonOf (r : GenerateContentResponse) : Option BlockReason :=
  r.promptFeedback.bind PromptFeedback.blockReason

/-- `response.promptFeedback.blockReasonMessage || ''`. -/
def blockMessageOf (r : GenerateContentResponse) : String :=
  ((r.promptFeedback.bind PromptFeedback.blockReasonMessage).getD "")

/-- `response.candidates?.[0]?.content?.parts?.find(part => part.inlineData)`:
the inline data of the first image-bearing part of the first candidate. -/
def findImagePart (r : GenerateContentResponse) : Option InlineData :=
  match r.candidates with
  | none => none
  | some cs =>
    match cs.head? with
    | none => none
    | some c =>
      match c.content with
      | none => none
      | some parts =>
        (parts.find? (fun p => p.inlineData.isSome)).bind ResponsePart.inlineData

/-- `response.candidates?.[0]?.finishReason`. -/
def firstFinishReason (r : GenerateContentResponse) : Option FinishReason :=
  (r.candidates.bind List.head?).bind Candidate.finishReason

/-- The trimmed text feedback used by the no-image error message:
`response.text?.trim()`, kept only when non-empty (JS truthiness). -/
def textFeedbackOf (r : GenerateContentResponse) : Option String :=
  match r.text with
  | none => none
  | some t => if jsTrim t = "" then none else some (jsTrim t)

/-- `handleApiResponse` from the gemini service: check the block reason
first, then look for an inline image, then a non-`STOP` finish reason, and
fail with a no-image error otherwise. -/
def handleApiResponse (r : GenerateContentResponse) : Except GenError String :=
  match blockReasonOf r with
  | some reason => .error (.blocked reason (blockMessageOf r))
  | none =>
    match findImagePart r with
    | some d => .ok ("data:" ++ d.mimeType ++ ";base64," ++ d.data)
    | none =>
      match firstFinishReason r with
      | some fr =>
        if fr = FinishReason.stop then .error (.noImage (textFeedbackOf r))
        else .error (.stopped fr)
      | none => .error (.noImage (textFeedbackOf r))

/-! ## Remote generation client: layered outfit synthesis -/

/-- One line of the outfit prompt's `promptInstructions`: the item category,
the garment reference (the 1-based index of its uploaded garment image, or
its text description), and the placement coordinates interpolated into the
instruction string. -/
inductive OutfitInstruction where
  | fromGarmentImage (category : ClothingCategory) (garmentIndex : Nat) (x y : Int)
  | fromText (category : ClothingCategory) (description : String) (x y : Int)
deriving DecidableEq

/-- The instruction-building loop of `generateLayeredOutfit`: skip items
without a hotspot; an upload-sourced item with a `File` value contributes a
garment-image instruction and bumps the garment counter; a prompt-sourced
item with a non-blank string value contributes a text instruction; every
other item is skipped. -/
def buildOutfitInstructions {α : Type} (items : List (ClothingItem α))
    (garmentImageCounter : Nat) : List OutfitInstruction :=
  match items with
  | [] => []
  | item :: rest =>
    match item.hotspot with
    | none => buildOutfitInstructions rest garmentImageCounter
    | some h =>
      match item.source, item.value with
      | ItemSource.upload, some (ItemValue.file _) =>
        OutfitInstruction.fromGarmentImage item.category (garmentImageCounter + 1) h.1 h.2 ::
          buildOutfitInstructions rest (garmentImageCounter + 1)
      | ItemSource.itemPrompt, some (ItemValue.text s) =>
        if jsTrim s = "" then buildOutfitInstructions rest garmentImageCounter
        else OutfitInstruction.fromText item.category s h.1 h.2 ::
          buildOutfitInstructions rest garmentImageCounter
      | _, _ => buildOutfitInstructions rest garmentImageCounter

/-- Whether an item contributes an instruction in `generateLayeredOutfit`:
it has a hotspot, and either an upload source with a `File` value or a
prompt source with a string value whose trim is non-empty. -/
def itemParticipates {α : Type} (item : ClothingItem α) : Bool :=
  item.hotspot.isSome &&
    (match item.source, item.value with
     | ItemSource.upload, some (ItemValue.file _) => true
     | ItemSource.itemPrompt, some (ItemValue.text s) => !(jsTrim s = "")
     | _, _ => false)

/-- JS truthiness of `item.value` as tested by `handleApplyOutfit`
(`item.value && item.hotspot`): `null` and the empty string are falsy, a
`File` and a non-empty string are truthy. -/
def valueTruthy {α : Type} (item : ClothingItem α) : Bool :=
  match item.value with
  | none => false
  | some (ItemValue.file _) => true
  | some (ItemValue.text s) => !(s = "")

/-- `generateLayeredOutfit` from the gemini service, up to the remote
exchange: build the per-item instructions, fail with the no-valid-items
error when none were produced, and otherwise interpret the supplied remote
response through `handleApiResponse`.  The returned data URI is paired with
the instruction list that was sent. -/
def generateLayeredOutfit {α : Type} (items : List (ClothingItem α))
    (response : GenerateContentResponse) :
    Except GenError (List OutfitInstruction × String) :=
  let promptInstructions := buildOutfitInstructions items 0
  if promptInstructions = [] then .error .noValidItems
  else
    match handleApiResponse response with
    | .error e => .error e
    | .ok url => .ok (promptInstructions, url)

/-! ## Remote generation client: contextual variation synthesis -/

/-- `Promise.all` over the already-settled outcomes of the per-context
requests: the first rejection rejects the whole batch, otherwise all results
are collected in order. -/
def promiseAll {ε β : Type} (results : List (Except ε β)) : Except ε (List β) :=
  match results with
  | [] => .ok []
  | r :: rs =>
    match r with
    | .error e => .error e
    | .ok v =>
      match promiseAll rs with
      | .error e => .error e
      | .ok vs => .ok (v :: vs)

/-- `generateVariations` from the gemini service: reject an empty context
list, otherwise issue one request per context string (the remote exchange is
abstracted by the oracle `remote`) and await them all. -/
def generateVariations (remote : String → Except GenError String)
    (contexts : List String) : Except GenError (List String) :=
  if contexts.length < 1 then
    .error (.invalidArgument "generateVariations requires at least 1 context string.")
  else promiseAll (contexts.map remote)

/-! ## Remote generation client: caption synthesis -/

/-- A parsed JSON value, as produced by the browser's `JSON.parse`. -/
inductive JsValue where
  | null
  | bool (b : Bool)
  | num (q : ℚ)
  | str (s : String)
  | arr (elems : List JsValue)
  | obj (fields : List (String × JsValue))

/-- JavaScript property access `v.captions` on a parsed JSON value: the
first field of that name when `v` is an object, and absent otherwise. -/
def jsGetField (v : JsValue) (key : String) : Option JsValue :=
  match v with
  | JsValue.obj fields => (fields.find? (fun p => p.1 == key)).map Prod.snd
  | _ => none

/-- The fixed built-in fallback caption list of `generateCaptions`. -/
def fallbackCaptions : List String :=
  [ "Had a great time exploring these places!"
  , "New outfit, new adventures! ✨"
  , "Which look is your favorite? Let me know! 👇"
  , "Making memories all over the world. #travel #style" ]

/-- The `try` body of `generateCaptions`: trim the response text, parse it
(the browser's `JSON.parse` is abstracted by the oracle `parse`, returning
`none` on a parse failure), and accept only a `captions` field that is an
array (any other shape throws the invalid-structure error). -/
def parseCaptionsResponse (parse : String → Option JsValue)
    (responseText : String) : Except String (List JsValue) :=
  match parse (jsTrim responseText) with
  | none => .error "JSON.parse failed"
  | some result =>
    match jsGetField result "captions" with
    | some (JsValue.arr xs) => .ok xs
    | _ => .error "Invalid JSON structure in caption response."

/-- `generateCaptions` from the gemini service, after the remote exchange:
return the parsed captions array, or the fixed fallback list when parsing
fails in any way (the `catch` branch).  The function is total: no error
reaches the caller. -/
def generateCaptions (parse : String → Option JsValue)
    (responseText : String) : List JsValue :=
  match parseCaptionsResponse parse responseText with
  | .ok captions => captions
  | .error _ => fallbackCaptions.map JsValue.str

/-! ## Placement-point computation (`handleImageClick`) -/

/-- The coordinate rescaling of `handleImageClick`: `scaleX = naturalWidth /
clientWidth`, `scaleY = naturalHeight / clientHeight`, and the stored point
is `(Math.round(offsetX * scaleX), Math.round(offsetY * scaleY))`.
`Math.round` rounds half-up, which is `round` on `ℚ`. -/
def computeHotspot (offsetX offsetY naturalWidth naturalHeight
    clientWidth clientHeight : ℚ) : Int × Int :=
  let scaleX := naturalWidth / clientWidth
  let scaleY := naturalHeight / clientHeight
  (round (offsetX * scaleX), round (offsetY * scaleY))

/-- `handleImageClick` from `App`: a no-op unless an item is awaiting
placement; otherwise record the display hotspot, store the rescaled
placement point on the active item, and clear the active-item id. -/
def handleImageClick {α : Type} (offsetX offsetY naturalWidth naturalHeight
    clientWidth clientHeight : ℚ) (s : AppState α) : AppState α :=
  match s.activeClothingItemId with
  | none => s
  | some aid =>
    let p := computeHotspot offsetX offsetY naturalWidth naturalHeight
      clientWidth clientHeight
    { s with
      displayHotspot := some (offsetX, offsetY)
      clothingItems := s.clothingItems.map (fun item =>
        if item.id = aid then { item with hotspot := some p } else item)
      activeClothingItemId := none }

/-! ## Targeted refinement (`handleRefineRequest`) -/

/-- `handleRefineRequest` from `App`.  The remote `refineImage` exchange is
abstracted by its outcome `refineResult`.  Guard order follows the source:
missing refinement data sets the cannot-refine error; a blank prompt sets
the instructions error; on success the targeted image is replaced in a copy
of the variation results and the modal is closed; on failure only the error
message is set. -/
def handleRefineRequest {α : Type} (promptText : String)
    (refineResult : Except String String) (s : AppState α) : AppState α :=
  match s.refinementState.imageIndex, s.refinementState.imageSrc,
      s.refinementState.caption, s.variationResults with
  | some idx, some _, some _, some vr =>
    if jsTrim promptText = "" then
      { s with error := some "Please provide instructions for the refinement." }
    else
      match refineResult with
      | .ok refinedImageUrl =>
        { s with
          error := none
          variationResults := some { vr with images := vr.images.set idx refinedImageUrl }
          refinementState :=
            { isOpen := false, imageIndex := none, imageSrc := none, caption := none } }
      | .error e =>
        { s with error := some ("Failed to refine the image. " ++ e) }
  | _, _, _, _ =>
    { s with error := some "Cannot perform refinement, required data is missing." }

/-! ## History action sequences -/

/-- The history-relevant user actions of `App`: reset-to-initial upload,
append of a generated image, undo, redo, reset-to-original, and
upload-new. -/
inductive HistoryAction (α : Type) where
  | upload (f : α)
  | append (f : α)
  | undo
  | redo
  | reset
  | uploadNew
deriving DecidableEq

/-- Apply one history action to the application state. -/
def applyAction {α : Type} (a : HistoryAction α) (s : AppState α) : AppState α :=
  match a with
  | .upload f => handleImageUpload f s
  | .append f => stepAddImage f s
  | .undo => handleUndo s
  | .redo => handleRedo s
  | .reset => handleReset s
  | .uploadNew => handleUploadNew s

/-- Run a sequence of history actions from the initial application state. -/
def runActions {α : Type} (acts : List (HistoryAction α)) : AppState α :=
  acts.foldl (fun s a => applyAction a s) (initState α)

/-- The history/cursor invariant: the cursor is -1 exactly when the history
is empty, and a valid index into it otherwise. -/
def cursorInv {α : Type} (s : AppState α) : Prop :=
  (s.history = [] ∧ s.historyIndex = -1) ∨
    (s.history ≠ [] ∧ 0 ≤ s.historyIndex ∧ s.historyIndex < s.history.length)

instance {α : Type} [DecidableEq α] (s : AppState α) : Decidable (cursorInv s) := by
  unfold cursorInv; infer_instance

/-! ## Concrete example states used by witnesses -/

/-- A state with three history entries and the cursor on the most recent. -/
def threeEntryState : AppState String :=
  { initState String with history := ["A", "B", "C"], historyIndex := 2 }

/-- A state with a movable cursor in both directions. -/
def midHistoryState : AppState Nat :=
  { initState Nat with history := [1, 2, 3], historyIndex := 1 }

/-- A hat item with no value and no placement point yet. -/
def hatItem : ClothingItem Nat :=
  { id := 5, category := ClothingCategory.hat, source := ItemSource.upload,
    value := none, hotspot := none }

/-- A state with one clothing item awaiting placement. -/
def placingState : AppState Nat :=
  { initState Nat with
    clothingItems := [hatItem]
    activeClothingItemId := some 5 }

/-- A state with an open refinement dialog targeting index 1 of a
three-image variation result set. -/
def refineExampleState : AppState Nat :=
  { initState Nat with
    variationResults := some { images := ["i0", "i1", "i2"], captions := ["c0"] }
    refinementState :=
      { isOpen := true, imageIndex := some 1, imageSrc := some "i1", caption := some "c0" } }

/-- A prompt-sourced clothing item whose description is whitespace only,
but which does carry a (truthy) value and a placement point. -/
def whitespaceItem : ClothingItem Nat :=
  { id := 1, category := ClothingCategory.top, source := ItemSource.itemPrompt,
    value := some (ItemValue.text " "), hotspot := some (100, 200) }

/-- A placed prompt-sourced item with a non-blank description. -/
def goodPromptItem : ClothingItem Nat :=
  { id := 2, category := ClothingCategory.top, source := ItemSource.itemPrompt,
    value := some (ItemValue.text "a blue top"), hotspot := some (10, 20) }

/-- An empty remote response (no feedback, no candidates, no text). -/
def emptyResponse : GenerateContentResponse :=
  { promptFeedback := none, candidates := none, text := none }

/-- A response part carrying an inline PNG payload. -/
def pngPart : ResponsePart :=
  { inlineData := some { mimeType := "image/png", data := "QUJD" }, text := none }

/-- A remote response carrying one inline image part. -/
def imageResponse : GenerateContentResponse :=
  { promptFeedback := none
    candidates := some [{ content := some [pngPart], finishReason := some FinishReason.stop }]
    text := none }

/-- A remote oracle that fails on the context string "b" and succeeds
elsewhere. -/
def failOnB : String → Except GenError String :=
  fun c => if c = "b" then Except.error (GenError.stopped FinishReason.other)
    else Except.ok c

/-! # Theorems -/

/-- C1.  For every history state with a valid cursor, `addImageToHistory`
yields `sequence[0..cursor] ++ [new]` with the cursor at the new last index,
discarding all entries past the old cursor; and on `[A, B, C]` with cursor
2, two undos followed by an append of `X` yield `[A, X]` with cursor 1. -/
theorem addImageToHistory_cut_future_push_new :
    (∀ (x : Nat) (seq : List Nat) (c : Int), 0 ≤ c → c < seq.length →
      addImageToHistory x seq c = (seq.take (c.toNat + 1) ++ [x], c + 1)) ∧
    (stepAddImage "X" (handleUndo (handleUndo threeEntryState))).history = ["A", "X"] ∧
    (stepAddImage "X" (handleUndo (handleUndo threeEntryState))).historyIndex = 1 := by
  refine ⟨?_, by decide, by decide⟩
  intro x seq c hc hlen
  have h1 : ¬ (c + 1 < 0) := by omega
  have h2 : (c + 1).toNat = c.toNat + 1 := by omega
  simp only [addImageToHistory, jsSliceTo, if_neg h1, h2, Prod.mk.injEq]
  refine ⟨trivial, ?_⟩
  have h3 : (seq.take (c.toNat + 1)).length = c.toNat + 1 := by
    rw [List.length_take]; omega
  simp only [List.length_append, h3, List.length_singleton]
  omega

/-- Witness for C1: appending 9 at cursor 2 of `[1, 2, 3]` keeps all three
entries and lands the cursor on the new index 3. -/
theorem addImageToHistory_cut_future_push_new_witness :
    addImageToHistory 9 [1, 2, 3] 2 = ([1, 2, 3, 9], 3) :=
  (addImageToHistory_cut_future_push_new.1 9 [1, 2, 3] 2 (by decide) (by decide)).trans
    (by decide)

/-- C7.  The stored placement point is the displayed click offset rescaled
by the natural-to-client ratio and rounded: `(round (ox * nw / cw),
round (oy * nh / ch))`; a click at (150, 200) on a 300×400 rendering of a
1200×1600 image stores (600, 800); and `handleImageClick` stores exactly
this point on the item awaiting placement. -/
theorem computeHotspot_rescale :
    (∀ ox oy nw nh cw ch : ℚ,
      computeHotspot ox oy nw nh cw ch =
        (round (ox * nw / cw), round (oy * nh / ch))) ∧
    computeHotspot 150 200 1200 1600 300 400 = (600, 800) ∧
    (∀ (s : AppState Nat) (aid : Nat) (ox oy nw nh cw ch : ℚ),
      s.activeClothingItemId = some aid →
      (handleImageClick ox oy nw nh cw ch s).clothingItems =
        s.clothingItems.map (fun item =>
          if item.id = aid then
            { item with hotspot := some (computeHotspot ox oy nw nh cw ch) }
          else item)) := by
  refine ⟨?_, ?_, ?_⟩
  · intro ox oy nw nh cw ch
    simp [computeHotspot, mul_div_assoc]
  · have h1 : (150 * (1200 / 300) : ℚ) = ((600 : ℤ) : ℚ) := by norm_num
    have h2 : (200 * (1600 / 400) : ℚ) = ((800 : ℤ) : ℚ) := by norm_num
    simp only [computeHotspot, h1, h2, round_intCast]
  · intro s aid ox oy nw nh cw ch h
    simp [handleImageClick, h]

/-- Witness for C7: clicking at (150, 200) with the example scale factors
stores (600, 800) on the active item of `placingState`. -/
theorem computeHotspot_rescale_witness :
    (handleImageClick 150 200 1200 1600 300 400 placingState).clothingItems =
      [{ hatItem with hotspot := some (600, 800) }] := by
  have h := computeHotspot_rescale.2.2 placingState 5 150 200 1200 1600 300 400 rfl
  rw [h, computeHotspot_rescale.2.1]
  rfl

/-- C8.  Confirming an applied outfit empties the clothing-item list,
resets the outfit-applied flag, leaves the history sequence and cursor
unchanged, and commutes with the next append except for those two cleared
fields. -/
theorem handleConfirmOutfit_effects :
    ∀ (s : AppState Nat) (x : Nat),
      (handleConfirmOutfit s).clothingItems = [] ∧
      (handleConfirmOutfit s).isOutfitApplied = false ∧
      (handleConfirmOutfit s).history = s.history ∧
      (handleConfirmOutfit s).historyIndex = s.historyIndex ∧
      stepAddImage x (handleConfirmOutfit s) =
        { stepAddImage x s with clothingItems := [], isOutfitApplied := false } :=
  fun _ _ => ⟨rfl, rfl, rfl, rfl, rfl⟩

/-- C9 counterexample.  After upload, a successful outfit application, a
successful variation generation and a discard of the variations, the
outfit-applied flag is still `true`: `handleDiscardVariations` does not
reset it, contradicting the claim. -/
theorem discardVariations_keeps_outfitApplied :
    (handleDiscardVariations
      (handleGenerateSuccess { images := ["v1"], captions := ["c1"] }
        (handleApplyOutfitSuccess 2
          (handleImageUpload 1 (initState Nat))))).isOutfitApplied = true := by
  decide

/-- C9 amended.  Confirm-outfit and upload-new always leave the
outfit-applied flag false; undo and redo leave it false whenever they can
act (their triggers are disabled otherwise); discard-variations leaves the
flag unchanged. -/
theorem outfit_flag_after_operations :
    ∀ (s : AppState Nat),
      (handleConfirmOutfit s).isOutfitApplied = false ∧
      (handleUploadNew s).isOutfitApplied = false ∧
      (canUndo s → (handleUndo s).isOutfitApplied = false) ∧
      (canRedo s → (handleRedo s).isOutfitApplied = false) ∧
      (handleDiscardVariations s).isOutfitApplied = s.isOutfitApplied := by
  intro s
  refine ⟨rfl, rfl, ?_, ?_, rfl⟩
  · intro h; simp [handleUndo, h]
  · intro h; simp [handleRedo, h]

/-- Witness for C9: on a state whose cursor can move both ways, undo and
redo both leave the outfit-applied flag false. -/
theorem outfit_flag_after_operations_witness :
    (handleUndo midHistoryState).isOutfitApplied = false ∧
    (handleRedo midHistoryState).isOutfitApplied = false :=
  ⟨(outfit_flag_after_operations midHistoryState).2.2.1 (by decide),
   (outfit_flag_after_operations midHistoryState).2.2.2.1 (by decide)⟩

/-- Every single history action preserves the cursor invariant. -/
theorem cursorInv_applyAction {α : Type} (a : HistoryAction α) (s : AppState α)
    (h : cursorInv s) : cursorInv (applyAction a s) := by
  cases a with
  | upload f =>
    right
    refine ⟨by simp [applyAction, handleImageUpload], ?_, ?_⟩ <;>
      simp [applyAction, handleImageUpload]
  | append f =>
    right
    refine ⟨?_, ?_, ?_⟩
    · simp [applyAction, stepAddImage, addImageToHistory]
    · simp only [applyAction, stepAddImage, addImageToHistory, List.length_append,
        List.length_singleton]
      omega
    · simp only [applyAction, stepAddImage, addImageToHistory, List.length_append,
        List.length_singleton]
      omega
  | undo =>
    by_cases hc : canUndo s
    · rcases h with ⟨he, hi⟩ | ⟨hne, h0, h1⟩
      · unfold canUndo at hc; omega
      · right
        simp only [applyAction, handleUndo]
        rw [if_pos hc]
        unfold canUndo at hc
        refine ⟨hne, ?_, ?_⟩
        · show (0 : ℤ) ≤ s.historyIndex - 1
          omega
        · show s.historyIndex - 1 < (s.history.length : ℤ)
          omega
    · simp only [applyAction, handleUndo]
      rw [if_neg hc]
      exact h
  | redo =>
    by_cases hc : canRedo s
    · rcases h with ⟨he, hi⟩ | ⟨hne, h0, h1⟩
      · unfold canRedo at hc
        rw [he, hi] at hc
        norm_num at hc
      · right
        simp only [applyAction, handleRedo]
        rw [if_pos hc]
        unfold canRedo at hc
        refine ⟨hne, ?_, ?_⟩
        · show (0 : ℤ) ≤ s.historyIndex + 1
          omega
        · show s.historyIndex + 1 < (s.history.length : ℤ)
          omega
    · simp only [applyAction, handleRedo]
      rw [if_neg hc]
      exact h
  | reset =>
    by_cases hl : 0 < s.history.length
    · right
      simp only [applyAction, handleReset]
      rw [if_pos hl]
      refine ⟨List.length_pos.mp hl, ?_, ?_⟩
      · show (0 : ℤ) ≤ 0
        omega
      · show (0 : ℤ) < (s.history.length : ℤ)
        exact_mod_cast hl
    · simp only [applyAction, handleReset]
      rw [if_neg hl]
      exact h
  | uploadNew =>
    left
    exact ⟨rfl, rfl⟩

/-- Folding history actions over any state satisfying the cursor invariant
keeps it satisfied. -/
theorem cursorInv_foldl {α : Type} (acts : List (HistoryAction α))
    (s : AppState α) (h : cursorInv s) :
    cursorInv (acts.foldl (fun s a => applyAction a s) s) := by
  induction acts generalizing s with
  | nil => exact h
  | cons a rest ih => exact ih _ (cursorInv_applyAction a s h)

/-- C2.  From the empty history, every sequence of history operations keeps
the cursor a valid index when the sequence is non-empty and -1 exactly when
it is empty; undo decrements the cursor exactly when it is positive, and
redo increments it exactly when it is below the last index. -/
theorem history_cursor_invariant :
    (∀ (α : Type) (acts : List (HistoryAction α)), cursorInv (runActions acts)) ∧
    (∀ (α : Type) (s : AppState α),
      (handleUndo s).historyIndex =
        if canUndo s then s.historyIndex - 1 else s.historyIndex) ∧
    (∀ (α : Type) (s : AppState α),
      (handleRedo s).historyIndex =
        if canRedo s then s.historyIndex + 1 else s.historyIndex) := by
  refine ⟨?_, ?_, ?_⟩
  · intro α acts
    exact cursorInv_foldl acts (initState α) (Or.inl ⟨rfl, rfl⟩)
  · intro α s
    by_cases h : canUndo s <;> simp [handleUndo, h]
  · intro α s
    by_cases h : canRedo s <;> simp [handleRedo, h]

/-- Witness for C2: a concrete action sequence with upload, appends, undos,
a redo and a reset ends in a state satisfying the cursor invariant. -/
theorem history_cursor_invariant_witness :
    cursorInv (runActions
      [HistoryAction.upload 7, HistoryAction.append 8, HistoryAction.append 9,
        HistoryAction.undo, HistoryAction.undo, HistoryAction.append 10,
        HistoryAction.redo, HistoryAction.reset, HistoryAction.uploadNew]) :=
  history_cursor_invariant.1 Nat _

/-- A non-participating item is skipped by the instruction builder without
touching the garment counter. -/
theorem build_cons_skip {α : Type} (item : ClothingItem α)
    (rest : List (ClothingItem α)) (c : Nat)
    (h : itemParticipates item = false) :
    buildOutfitInstructions (item :: rest) c = buildOutfitInstructions rest c := by
  unfold itemParticipates at h
  conv_lhs => rw [buildOutfitInstructions]
  cases hh : item.hotspot with
  | none => simp [hh]
  | some pt =>
    rw [hh] at h
    simp only [Option.isSome_some, Bool.true_and] at h
    cases hs : item.source
    case upload =>
      cases hv : item.value
      case none => simp [hh, hs, hv]
      case some v =>
        cases v with
        | file f => rw [hs, hv] at h; simp at h
        | text s => simp [hh, hs, hv]
    case itemPrompt =>
      cases hv : item.value
      case none => simp [hh, hs, hv]
      case some v =>
        cases v with
        | file f => simp [hh, hs, hv]
        | text s =>
          rw [hs, hv] at h
          have h2 : jsTrim s = "" := by simpa using h
          simp [hh, hs, hv, h2]

/-- An upload-sourced item with a file value and a hotspot contributes a
garment-image instruction and bumps the garment counter. -/
theorem build_cons_upload {α : Type} (item : ClothingItem α)
    (rest : List (ClothingItem α)) (c : Nat) (f : α) (pt : Int × Int)
    (hs : item.source = ItemSource.upload)
    (hv : item.value = some (ItemValue.file f))
    (hh : item.hotspot = some pt) :
    buildOutfitInstructions (item :: rest) c =
      OutfitInstruction.fromGarmentImage item.category (c + 1) pt.1 pt.2 ::
        buildOutfitInstructions rest (c + 1) := by
  conv_lhs => rw [buildOutfitInstructions]
  simp [hh, hs, hv]

/-- A prompt-sourced item with a non-blank description and a hotspot
contributes a text instruction and leaves the garment counter alone. -/
theorem build_cons_text {α : Type} (item : ClothingItem α)
    (rest : List (ClothingItem α)) (c : Nat) (s : String) (pt : Int × Int)
    (hs : item.source = ItemSource.itemPrompt)
    (hv : item.value = some (ItemValue.text s))
    (ht : jsTrim s ≠ "")
    (hh : item.hotspot = some pt) :
    buildOutfitInstructions (item :: rest) c =
      OutfitInstruction.fromText item.category s pt.1 pt.2 ::
        buildOutfitInstructions rest c := by
  conv_lhs => rw [buildOutfitInstructions]
  simp [hh, hs, hv, ht]

/-- A participating item has a hotspot, and either an upload source with a
file value or a prompt source with a non-blank description. -/
theorem participates_shape {α : Type} (item : ClothingItem α)
    (hp : itemParticipates item = true) :
    ∃ pt, item.hotspot = some pt ∧
      ((∃ f, item.source = ItemSource.upload ∧
          item.value = some (ItemValue.file f)) ∨
       (∃ s, item.source = ItemSource.itemPrompt ∧
          item.value = some (ItemValue.text s) ∧ jsTrim s ≠ "")) := by
  unfold itemParticipates at hp
  cases hh : item.hotspot with
  | none => rw [hh] at hp; simp at hp
  | some pt =>
    refine ⟨pt, rfl, ?_⟩
    rw [hh] at hp
    simp only [Option.isSome_some, Bool.true_and] at hp
    cases hs : item.source
    case upload =>
      cases hv : item.value
      case none => rw [hs, hv] at hp; simp at hp
      case some v =>
        cases v with
        | file f => exact Or.inl ⟨f, rfl, rfl⟩
        | text s => rw [hs, hv] at hp; simp at hp
    case itemPrompt =>
      cases hv : item.value
      case none => rw [hs, hv] at hp; simp at hp
      case some v =>
        cases v with
        | file f => rw [hs, hv] at hp; simp at hp
        | text s =>
          rw [hs, hv] at hp
          simp only [Bool.not_eq_true'] at hp
          exact Or.inr ⟨s, rfl, rfl, by simpa using hp⟩

/-- Filtering out the non-participating items does not change the built
instruction list: exactly the participating items contribute. -/
theorem build_filter_participating {α : Type} (items : List (ClothingItem α)) :
    ∀ c, buildOutfitInstructions (items.filter itemParticipates) c =
      buildOutfitInstructions items c := by
  induction items with
  | nil => intro c; rfl
  | cons item rest ih =>
    intro c
    by_cases hp : itemParticipates item = true
    · rw [List.filter_cons_of_pos hp]
      rcases participates_shape item hp with ⟨pt, hh, ⟨f, hs, hv⟩ | ⟨s, hs, hv, ht⟩⟩
      · rw [build_cons_upload item (rest.filter itemParticipates) c f pt hs hv hh,
          build_cons_upload item rest c f pt hs hv hh, ih]
      · rw [build_cons_text item (rest.filter itemParticipates) c s pt hs hv ht hh,
          build_cons_text item rest c s pt hs hv ht hh, ih]
    · have hp' : itemParticipates item = false := by simpa using hp
      rw [List.filter_cons_of_neg hp, build_cons_skip item rest c hp', ih]

/-- The built instruction list has one entry per participating item. -/
theorem build_length {α : Type} (items : List (ClothingItem α)) :
    ∀ c, (buildOutfitInstructions items c).length =
      (items.filter itemParticipates).length := by
  induction items with
  | nil => intro c; rfl
  | cons item rest ih =>
    intro c
    by_cases hp : itemParticipates item = true
    · rcases participates_shape item hp with ⟨pt, hh, ⟨f, hs, hv⟩ | ⟨s, hs, hv, ht⟩⟩
      · rw [build_cons_upload item rest c f pt hs hv hh, List.filter_cons_of_pos hp]
        simp [ih]
      · rw [build_cons_text item rest c s pt hs hv ht hh, List.filter_cons_of_pos hp]
        simp [ih]
    · have hp' : itemParticipates item = false := by simpa using hp
      rw [build_cons_skip item rest c hp', List.filter_cons_of_neg hp, ih]

/-- `handleApiResponse` never produces the no-valid-items error: that error
comes only from the pre-flight item validation. -/
theorem handleApiResponse_not_noValidItems (r : GenerateContentResponse) :
    handleApiResponse r ≠ Except.error GenError.noValidItems := by
  unfold handleApiResponse
  rcases blockReasonOf r with _ | reason
  · rcases findImagePart r with _ | d
    · rcases firstFinishReason r with _ | fr
      · simp
      · dsimp only
        split <;> simp
    · simp
  · simp

/-- `generateLayeredOutfit` fails with the no-valid-items error exactly
when no item participates. -/
theorem generateLayeredOutfit_noValidItems_iff {α : Type}
    (items : List (ClothingItem α)) (r : GenerateContentResponse) :
    (generateLayeredOutfit items r = Except.error GenError.noValidItems ↔
      ∀ item ∈ items, itemParticipates item = false) := by
  unfold generateLayeredOutfit
  by_cases hb : buildOutfitInstructions items 0 = []
  · rw [if_pos hb]
    refine iff_of_true rfl ?_
    intro item hmem
    have hlen := build_length items 0
    rw [hb] at hlen
    simp only [List.length_nil] at hlen
    have hnil : items.filter itemParticipates = [] := List.length_eq_zero.mp hlen.symm
    have h2 := List.filter_eq_nil_iff.mp hnil item hmem
    simpa using h2
  · rw [if_neg hb]
    refine iff_of_false ?_ ?_
    · intro h
      cases hr : handleApiResponse r with
      | error e =>
        rw [hr] at h
        simp only [Except.error.injEq] at h
        rw [h] at hr
        exact handleApiResponse_not_noValidItems r hr
      | ok url => rw [hr] at h; simp at h
    · intro hall
      apply hb
      have hnil : items.filter itemParticipates = [] :=
        List.filter_eq_nil_iff.mpr (by intro a ha; simpa using hall a ha)
      rw [← build_filter_participating items 0, hnil]
      rfl

/-- C3 counterexample.  A prompt-sourced item whose description is a single
space has a (truthy) value and a placement point, yet it contributes no
instruction and `generateLayeredOutfit` fails with the no-valid-items
error, so "exactly the items with a value and a placement point contribute"
is false as stated. -/
theorem layeredOutfit_whitespace_counterexample :
    valueTruthy whitespaceItem = true ∧
    whitespaceItem.hotspot.isSome = true ∧
    buildOutfitInstructions [whitespaceItem] 0 = [] ∧
    generateLayeredOutfit [whitespaceItem] emptyResponse =
      Except.error GenError.noValidItems := by
  refine ⟨rfl, rfl, by decide, rfl⟩

/-- C3 amended.  Exactly the items with a placement point and either an
uploaded-file value or a non-blank text description contribute an
instruction (filtering the others away changes nothing, and the instruction
count equals the participating-item count), and the operation fails with
the no-valid-items error if and only if zero items so participate. -/
theorem layeredOutfit_participation :
    (∀ (items : List (ClothingItem Nat)) (c : Nat),
      buildOutfitInstructions (items.filter itemParticipates) c =
        buildOutfitInstructions items c) ∧
    (∀ (items : List (ClothingItem Nat)) (c : Nat),
      (buildOutfitInstructions items c).length =
        (items.filter itemParticipates).length) ∧
    (∀ (items : List (ClothingItem Nat)) (r : GenerateContentResponse),
      generateLayeredOutfit items r = Except.error GenError.noValidItems ↔
        ∀ item ∈ items, itemParticipates item = false) :=
  ⟨fun items c => build_filter_participating items c,
   fun items c => build_length items c,
   fun items r => generateLayeredOutfit_noValidItems_iff items r⟩

/-- Witness for C3: on a two-item list whose first item is the whitespace
item and whose second is a placed non-blank prompt item, filtering matches
the builder and exactly one instruction is produced. -/
theorem layeredOutfit_participation_witness :
    buildOutfitInstructions ([whitespaceItem, goodPromptItem].filter itemParticipates) 0 =
      buildOutfitInstructions [whitespaceItem, goodPromptItem] 0 ∧
    (buildOutfitInstructions [whitespaceItem, goodPromptItem] 0).length = 1 :=
  ⟨layeredOutfit_participation.1 [whitespaceItem, goodPromptItem] 0,
   (layeredOutfit_participation.2.1 [whitespaceItem, goodPromptItem] 0).trans (by decide)⟩

/-- C4.  `handleApiResponse` interprets a remote response in priority
order: a present block reason fails with the blocked error carrying it;
otherwise a present image payload yields the `data:<mediaType>;base64,<data>`
URI; otherwise a present non-STOP finish reason fails with the stopped
error carrying it; otherwise the no-image error carries any returned
(trimmed, non-empty) text. -/
theorem handleApiResponse_priority :
    ∀ (r : GenerateContentResponse),
      (∀ reason, blockReasonOf r = some reason →
        handleApiResponse r =
          Except.error (GenError.blocked reason (blockMessageOf r))) ∧
      (∀ d, blockReasonOf r = none → findImagePart r = some d →
        handleApiResponse r =
          Except.ok ("data:" ++ d.mimeType ++ ";base64," ++ d.data)) ∧
      (∀ fr, blockReasonOf r = none → findImagePart r = none →
        firstFinishReason r = some fr → fr ≠ FinishReason.stop →
        handleApiResponse r = Except.error (GenError.stopped fr)) ∧
      (blockReasonOf r = none → findImagePart r = none →
        (firstFinishReason r = none ∨ firstFinishReason r = some FinishReason.stop) →
        handleApiResponse r = Except.error (GenError.noImage (textFeedbackOf r))) := by
  intro r
  refine ⟨?_, ?_, ?_, ?_⟩
  · intro reason hb
    unfold handleApiResponse
    rw [hb]
  · intro d hb hi
    unfold handleApiResponse
    rw [hb, hi]
  · intro fr hb hi hf hne
    unfold handleApiResponse
    rw [hb, hi, hf]
    simp [hne]
  · intro hb hi hf
    unfold handleApiResponse
    rw [hb, hi]
    rcases hf with hf | hf
    · rw [hf]
    · rw [hf]
      simp

/-- Witness for C4: a response whose first candidate carries an inline PNG
payload is interpreted as the corresponding data URI. -/
theorem handleApiResponse_priority_witness :
    handleApiResponse imageResponse = Except.ok "data:image/png;base64,QUJD" := by
  have h := (handleApiResponse_priority imageResponse).2.1
    { mimeType := "image/png", data := "QUJD" } rfl rfl
  exact h.trans (by rfl)

/-- A successful `Promise.all` returns as many results as inputs, the i-th
result coming from the i-th input. -/
theorem promiseAll_ok_spec {ε β : Type} :
    ∀ (rs : List (Except ε β)) (vs : List β), promiseAll rs = Except.ok vs →
      vs.length = rs.length ∧
      ∀ i (h1 : i < rs.length) (h2 : i < vs.length),
        rs.get ⟨i, h1⟩ = Except.ok (vs.get ⟨i, h2⟩) := by
  intro rs
  induction rs with
  | nil =>
    intro vs h
    simp only [promiseAll] at h
    injection h with h'
    subst h'
    refine ⟨rfl, ?_⟩
    intro i h1 h2
    exact absurd h1 (by simp)
  | cons r rest ih =>
    intro vs h
    unfold promiseAll at h
    cases hr : r with
    | error e => rw [hr] at h; simp at h
    | ok v =>
      rw [hr] at h
      cases hps : promiseAll rest with
      | error e => rw [hps] at h; simp at h
      | ok vs0 =>
        rw [hps] at h
        injection h with h'
        subst h'
        obtain ⟨hlen, hget⟩ := ih vs0 hps
        refine ⟨by simp [hlen], ?_⟩
        intro i h1 h2
        cases i with
        | zero => rfl
        | succ j =>
          simp only [List.get_cons_succ]
          exact hget j (by simpa using h1) (by simpa using h2)

/-- A successful `Promise.all` means every input had resolved. -/
theorem promiseAll_mem_ok {ε β : Type} :
    ∀ (rs : List (Except ε β)) (vs : List β), promiseAll rs = Except.ok vs →
      ∀ r ∈ rs, ∃ v, r = Except.ok v := by
  intro rs
  induction rs with
  | nil =>
    intro vs _ r hr
    exact absurd hr (by simp)
  | cons r0 rest ih =>
    intro vs h r hr
    unfold promiseAll at h
    cases hr0 : r0 with
    | error e => rw [hr0] at h; simp at h
    | ok v =>
      rw [hr0] at h
      cases hps : promiseAll rest with
      | error e => rw [hps] at h; simp at h
      | ok vs0 =>
        rcases List.mem_cons.mp hr with hEq | hmem
        · exact ⟨v, hEq.trans hr0⟩
        · exact ih vs0 hps r hmem

/-- If every input resolved, `Promise.all` succeeds. -/
theorem promiseAll_exists_ok {ε β : Type} :
    ∀ (rs : List (Except ε β)), (∀ r ∈ rs, ∃ v, r = Except.ok v) →
      ∃ vs, promiseAll rs = Except.ok vs := by
  intro rs
  induction rs with
  | nil => intro _; exact ⟨[], rfl⟩
  | cons r rest ih =>
    intro hall
    obtain ⟨v, hv⟩ := hall r (by simp)
    obtain ⟨vs, hvs⟩ := ih (fun r0 hr0 => hall r0 (List.mem_cons_of_mem r hr0))
    refine ⟨v :: vs, ?_⟩
    unfold promiseAll
    rw [hv, hvs]

/-- C5 counterexample.  On the empty context list the operation does not
return the zero results in order: it is rejected outright, even though
every (zero) sub-request succeeds. -/
theorem generateVariations_empty_counterexample :
    generateVariations (fun c => Except.ok c) [] ≠ Except.ok ([] : List String) := by
  unfold generateVariations
  simp

/-- C5 amended.  For every non-empty context list, one request is issued
per string and a success returns exactly one result per context in input
order; any single sub-request failure fails the whole operation (no partial
set); all sub-requests succeeding makes the whole operation succeed; the
empty list is rejected with an invalid-argument error. -/
theorem generateVariations_order_all_or_nothing :
    ∀ (remote : String → Except GenError String) (contexts : List String),
      (∀ results, generateVariations remote contexts = Except.ok results →
        results.length = contexts.length ∧
        ∀ i (h1 : i < contexts.length) (h2 : i < results.length),
          remote (contexts.get ⟨i, h1⟩) = Except.ok (results.get ⟨i, h2⟩)) ∧
      ((∃ c ∈ contexts, ∀ v, remote c ≠ Except.ok v) →
        ∀ results, generateVariations remote contexts ≠ Except.ok results) ∧
      (contexts ≠ [] → (∀ c ∈ contexts, ∃ v, remote c = Except.ok v) →
        ∃ results, generateVariations remote contexts = Except.ok results) := by
  intro remote contexts
  refine ⟨?_, ?_, ?_⟩
  · intro results h
    unfold generateVariations at h
    by_cases hc : contexts.length < 1
    · rw [if_pos hc] at h; simp at h
    · rw [if_neg hc] at h
      obtain ⟨hlen, hget⟩ := promiseAll_ok_spec (contexts.map remote) results h
      refine ⟨by simpa using hlen, ?_⟩
      intro i h1 h2
      have h1m : i < (contexts.map remote).length := by simpa using h1
      have hg := hget i h1m h2
      rwa [List.get_map] at hg
  · rintro ⟨c, hc, hfail⟩ results h
    unfold generateVariations at h
    by_cases hlt : contexts.length < 1
    · rw [if_pos hlt] at h; simp at h
    · rw [if_neg hlt] at h
      obtain ⟨v, hv⟩ := promiseAll_mem_ok (contexts.map remote) results h
        (remote c) (List.mem_map_of_mem remote hc)
      exact hfail v hv
  · intro hne hall
    unfold generateVariations
    have hlen : ¬ contexts.length < 1 := by
      simp only [Nat.lt_one_iff, List.length_eq_zero]
      exact hne
    rw [if_neg hlen]
    apply promiseAll_exists_ok
    intro r hr
    obtain ⟨c, hc, hEq⟩ := List.mem_map.mp hr
    rw [← hEq]
    exact hall c hc

/-- Witness for C5: with three contexts whose second remote call fails, the
whole batch fails (no 2-of-3 result set). -/
theorem generateVariations_order_all_or_nothing_witness :
    generateVariations failOnB ["a", "b", "c"] ≠ Except.ok ["a", "b", "c"] :=
  (generateVariations_order_all_or_nothing failOnB ["a", "b", "c"]).2.1
    ⟨"b", by decide, fun v h => by simp [failOnB] at h⟩ ["a", "b", "c"]

/-- C6.  Whenever the caption response text fails to parse as JSON, or
parses but lacks a `captions` array, `generateCaptions` returns exactly the
fixed built-in 4-item fallback list (and, being total, propagates no error
to the caller). -/
theorem generateCaptions_fallback :
    (∀ (parse : String → Option JsValue) (responseText : String),
      parse (jsTrim responseText) = none →
        generateCaptions parse responseText = fallbackCaptions.map JsValue.str) ∧
    (∀ (parse : String → Option JsValue) (responseText : String) (v : JsValue),
      parse (jsTrim responseText) = some v →
      (∀ xs, jsGetField v "captions" ≠ some (JsValue.arr xs)) →
        generateCaptions parse responseText = fallbackCaptions.map JsValue.str) ∧
    fallbackCaptions.length = 4 := by
  refine ⟨?_, ?_, rfl⟩
  · intro parse responseText h
    unfold generateCaptions parseCaptionsResponse
    rw [h]
  · intro parse responseText v h hno
    unfold generateCaptions parseCaptionsResponse
    rw [h]
    dsimp only
    cases hf : jsGetField v "captions" with
    | none => rfl
    | some w =>
      cases w with
      | null => rfl
      | bool b => rfl
      | num q => rfl
      | str s => rfl
      | arr xs => exact absurd hf (hno xs)
      | obj fields => rfl

/-- Witness for C6: an unparsable response yields the 4-item fallback. -/
theorem generateCaptions_fallback_witness :
    generateCaptions (fun _ => none) "not json" = fallbackCaptions.map JsValue.str :=
  generateCaptions_fallback.1 (fun _ => none) "not json" rfl

/-- C10.  With the refinement dialog targeting index `idx` of the current
variation result set and a non-blank prompt, a successful refinement
replaces only the image at `idx` (same length, every other index and the
caption list unchanged) and leaves history and cursor untouched; a failed
refinement leaves the result set, history and cursor unchanged. -/
theorem handleRefineRequest_frame :
    ∀ (s : AppState Nat) (idx : Nat) (src cap promptText newUrl : String)
      (vr : VariationResults),
      s.refinementState.imageIndex = some idx →
      s.refinementState.imageSrc = some src →
      s.refinementState.caption = some cap →
      s.variationResults = some vr →
      jsTrim promptText ≠ "" →
      ((handleRefineRequest promptText (Except.ok newUrl) s).variationResults =
          some { images := vr.images.set idx newUrl, captions := vr.captions } ∧
        (handleRefineRequest promptText (Except.ok newUrl) s).history = s.history ∧
        (handleRefineRequest promptText (Except.ok newUrl) s).historyIndex =
          s.historyIndex ∧
        (idx < vr.images.length →
          (vr.images.set idx newUrl).get? idx = some newUrl) ∧
        (∀ j, j ≠ idx → (vr.images.set idx newUrl).get? j = vr.images.get? j) ∧
        (vr.images.set idx newUrl).length = vr.images.length) ∧
      (∀ e, (handleRefineRequest promptText (Except.error e) s).variationResults =
          s.variationResults ∧
        (handleRefineRequest promptText (Except.error e) s).history = s.history ∧
        (handleRefineRequest promptText (Except.error e) s).historyIndex =
          s.historyIndex) := by
  intro s idx src cap promptText newUrl vr h1 h2 h3 h4 h5
  constructor
  · unfold handleRefineRequest
    rw [h1, h2, h3, h4]
    dsimp only
    rw [if_neg h5]
    refine ⟨rfl, rfl, rfl, ?_, ?_, List.length_set vr.images idx newUrl⟩
    · intro hlt
      exact List.get?_set_eq_of_lt newUrl hlt
    · intro j hj
      exact List.get?_set_ne newUrl vr.images (Ne.symm hj)
  · intro e
    unfold handleRefineRequest
    rw [h1, h2, h3, h4]
    dsimp only
    rw [if_neg h5]
    exact ⟨rfl, rfl, rfl⟩

/-- Witness for C10: refining index 1 of a three-image result set replaces
exactly that image. -/
theorem handleRefineRequest_frame_witness :
    (handleRefineRequest "make it brighter" (Except.ok "newImg")
        refineExampleState).variationResults =
      some { images := ["i0", "newImg", "i2"], captions := ["c0"] } := by
  have h := (handleRefineRequest_frame refineExampleState 1 "i1" "c0"
    "make it brighter" "newImg" { images := ["i0", "i1", "i2"], captions := ["c0"] }
    rfl rfl rfl rfl (by decide)).1.1
  exact h.trans (by rfl)

end BananaFits
